import Mathlib

/-!
Shallow embedding of the card-rendering code of arcanaland/cartomancer
(the `show` command: word wrapping, ANSI stripping, the image→ANSI art
pipeline and the cache-backed art lookup), together with theorems
settling the specification's claims about it.

Strings manipulated character by character are modelled as `List Char`
(Go iterates runes with `for _, c := range s`), and so are filesystem
paths, so that every operation computes by structural recursion.
Machine integers are `Int`/`Nat`; Go `float64` colour components are
modelled as `ℚ` (the operations used — addition, division by a constant —
are exact in both).
-/

/-! ## Text utilities: `strings.Fields` and `wrapText` -/

/-- Models `unicode.IsSpace` on the ASCII range used by `strings.Fields`. -/
def isSpaceChar (c : Char) : Bool :=
  c = ' ' || c = '\t' || c = '\n' || c = '\r' || c = '\x0b' || c = '\x0c'

/-- Accumulator-based splitter behind `fields`. -/
def fieldsAux : List Char → List Char → List (List Char)
  | [], cur => if cur = [] then [] else [cur.reverse]
  | c :: rest, cur =>
    if isSpaceChar c then
      if cur = [] then fieldsAux rest [] else cur.reverse :: fieldsAux rest []
    else fieldsAux rest (c :: cur)

/-- Models Go `strings.Fields`: split around runs of whitespace, dropping
empty fields. -/
def fields (s : List Char) : List (List Char) := fieldsAux s []

/-- One iteration of the word-accumulation loop of `wrapText`
(src/unnamed/part_002, lines 438–451): state is `(result, currentLine)`. -/
def wrapStep (width : Int) (st : List (List Char) × List Char) (word : List Char) :
    List (List Char) × List Char :=
  let result := st.1
  let currentLine := st.2
  if currentLine.length = 0 then (result, word)
  else if (currentLine.length : Int) + 1 + (word.length : Int) ≤ width then
    (result, currentLine ++ ' ' :: word)
  else (result ++ [currentLine], word)

/-- Models `wrapText` (src/unnamed/part_002, lines 424–459): clamp widths
below 10 to 40, split the text into words, then greedily fill lines. -/
def wrapText (text : List Char) (width : Int) : List (List Char) :=
  let w := if width < 10 then 40 else width
  let words := fields text
  if words.isEmpty then [[]]
  else
    let p := words.foldl (wrapStep w) ([], [])
    if p.2 ≠ [] then p.1 ++ [p.2] else p.1

/-! ## `stripAnsi` and `ansiColorString` -/

/-- The state machine of `stripAnsi` (src/unnamed/part_002, lines 557–573):
the `Bool` is the `inEscape` flag. While in an escape the scanner drops
characters until it sees `'m'`; outside, `'\x1b'` enters escape state and
every other character is kept. -/
def stripAnsiAux : Bool → List Char → List Char
  | _, [] => []
  | true, c :: rest =>
    if c = 'm' then stripAnsiAux false rest else stripAnsiAux true rest
  | false, c :: rest =>
    if c = '\x1b' then stripAnsiAux true rest else c :: stripAnsiAux false rest

/-- Models `stripAnsi`: remove ANSI escape sequences from a string. -/
def stripAnsi (s : List Char) : List Char := stripAnsiAux false s

/-- Decimal digit character for `d % 10` (the `%d` verb emits base-10
digits). -/
def digitChar (d : Nat) : Char :=
  match d % 10 with
  | 0 => '0' | 1 => '1' | 2 => '2' | 3 => '3' | 4 => '4'
  | 5 => '5' | 6 => '6' | 7 => '7' | 8 => '8' | _ => '9'

/-- Decimal rendering of a natural number, as emitted by `fmt.Sprintf`'s
`%d` for a non-negative integer. -/
def natDecimal (n : Nat) : List Char :=
  if _h : n < 10 then [digitChar n]
  else natDecimal (n / 10) ++ [digitChar n]
decreasing_by exact Nat.div_lt_self (by omega) (by norm_num)

/-- A value of Go's `color.Color` interface, represented by the result of
its only method `RGBA()`: alpha-premultiplied 16-bit components. -/
structure GoColor where
  r : Nat
  g : Nat
  b : Nat
  a : Nat
deriving DecidableEq

/-- Models `ansiColorString` (src/unnamed/part_002, lines 372–389): the
components returned by `RGBA()` are shifted down to 8 bits and, in
truecolor mode, spliced into `"\x1b[38;2;R;G;Bm\x1b[48;2;R;G;Bm%c\x1b[0m"`;
otherwise the bare character is returned. -/
def ansiColorString (char : Char) (fg bg : GoColor) (use256Colors : Bool) : List Char :=
  let r1 := fg.r >>> 8
  let g1 := fg.g >>> 8
  let b1 := fg.b >>> 8
  let r2 := bg.r >>> 8
  let g2 := bg.g >>> 8
  let b2 := bg.b >>> 8
  if use256Colors then
    '\x1b' :: '[' :: '3' :: '8' :: ';' :: '2' :: ';' ::
      (natDecimal r1 ++ ';' :: natDecimal g1 ++ ';' :: natDecimal b1 ++ ['m']) ++
    '\x1b' :: '[' :: '4' :: '8' :: ';' :: '2' :: ';' ::
      (natDecimal r2 ++ ';' :: natDecimal g2 ++ ';' :: natDecimal b2 ++ ['m']) ++
    char :: '\x1b' :: '[' :: '0' :: ['m']
  else [char]

/-! ## Colours: `colorful.Color`, `averageColor`, conversions -/

/-- Models `colorful.Color` (go-colorful): three `float64` components,
embedded as exact rationals. -/
structure ColorF where
  R : ℚ
  G : ℚ
  B : ℚ
deriving DecidableEq

/-- Models `averageColor` (src/unnamed/part_002, lines 351–360): sum each
component over the variadic argument list in order, then divide by the
number of colours. -/
def averageColor (colors : List ColorF) : ColorF :=
  let r := colors.foldl (fun s c => s + c.R) 0
  let g := colors.foldl (fun s c => s + c.G) 0
  let b := colors.foldl (fun s c => s + c.B) 0
  let count : ℚ := colors.length
  ⟨r / count, g / count, b / count⟩

/-- Models `colorful.MakeColor` (go-colorful, external dependency): read the
16-bit premultiplied components, un-multiply by alpha with integer
division, and scale into `[0,1]`; an alpha of zero yields black. -/
def makeColorF (c : GoColor) : ColorF :=
  if c.a = 0 then ⟨0, 0, 0⟩
  else
    ⟨((c.r * 65535 / c.a : Nat) : ℚ) / 65535,
     ((c.g * 65535 / c.a : Nat) : ℚ) / 65535,
     ((c.b * 65535 / c.a : Nat) : ℚ) / 65535⟩

/-- Models Go's `uint8(x)` conversion of a non-negative in-range `float64`:
truncation toward zero, reduced mod 256. -/
def quantize8 (q : ℚ) : Nat := (max 0 ⌊q⌋).toNat % 256

/-- A `color.RGBA` value: four 8-bit components. -/
structure RGBA8 where
  r : Nat
  g : Nat
  b : Nat
  a : Nat
deriving DecidableEq

/-- Models `colorfulToColor` (src/unnamed/part_002, lines 363–370): scale
each component by 255, truncate to `uint8`, alpha 255. -/
def colorfulToColor (c : ColorF) : RGBA8 :=
  ⟨quantize8 (c.R * 255), quantize8 (c.G * 255), quantize8 (c.B * 255), 255⟩

/-- The `RGBA()` method of `color.RGBA`: each 8-bit component `v` becomes
the 16-bit value `v | v<<8 = v * 257`. -/
def rgba8ToGoColor (c : RGBA8) : GoColor :=
  ⟨c.r * 257, c.g * 257, c.b * 257, c.a * 257⟩

/-! ## Image model, `getColorAt`, the resize step and `imageToAnsi` -/

/-- An in-memory image as seen through Go's `image.Image` interface:
rectangular bounds and a pixel accessor. -/
structure ImageM where
  minX : Int
  minY : Int
  maxX : Int
  maxY : Int
  pixel : Int → Int → GoColor

/-- A decoded source image together with its Lanczos3 resamplings: the
`lanczos w h` field gives the pixel function of `resize.Resize w h img`.
The resampling kernel itself lives in the external `nfnt/resize`
dependency and is kept abstract. -/
structure SourceImage where
  base : ImageM
  lanczos : Nat → Nat → Int → Int → GoColor

/-- Models the external library call `resize.Resize(w, h, img, Lanczos3)`
for nonzero `w`, `h`: per the library's contract the result is an image
whose bounds are exactly `(0,0)-(w,h)`, with resampled pixel values. -/
def resizeImage (img : SourceImage) (w h : Nat) : ImageM :=
  ⟨0, 0, (w : Int), (h : Int), img.lanczos w h⟩

/-- Models `getColorAt` (src/unnamed/part_002, lines 342–348): in-bounds
reads delegate to the image, out-of-bounds reads return opaque black
(`color.RGBA{0,0,0,255}`, whose `RGBA()` is `(0,0,0,65535)`). -/
def getColorAt (img : ImageM) (x y : Int) : GoColor :=
  if img.minX ≤ x ∧ x < img.maxX ∧ img.minY ≤ y ∧ y < img.maxY then
    img.pixel x y
  else ⟨0, 0, 0, 65535⟩

/-- One character cell of `imageToAnsi` (src/unnamed/part_002, lines
311–333): read the 2×2 block of sub-pixels at `(x,y)`, average the top
pair into the foreground and the bottom pair into the background, and
render the upper half block. -/
def cellString (resized : ImageM) (x y : Nat) (use256Colors : Bool) : List Char :=
  let c1 := getColorAt resized x y
  let c2 := getColorAt resized (x + 1) y
  let c3 := getColorAt resized x (y + 1)
  let c4 := getColorAt resized (x + 1) (y + 1)
  let col1 := makeColorF c1
  let col2 := makeColorF c2
  let col3 := makeColorF c3
  let col4 := makeColorF c4
  let upperHalfFg := averageColor [col1, col2]
  let lowerHalfBg := averageColor [col3, col4]
  let fg := colorfulToColor upperHalfFg
  let bg := colorfulToColor lowerHalfBg
  ansiColorString '▀' (rgba8ToGoColor fg) (rgba8ToGoColor bg) use256Colors

/-- The inner loop of `imageToAnsi`: `for x := 0; x < width*2; x += 2`. -/
def ansiRowLoop (resized : ImageM) (w2 y : Nat) (use256Colors : Bool) (x : Nat) :
    List Char :=
  if _h : x < w2 then
    cellString resized x y use256Colors ++ ansiRowLoop resized w2 y use256Colors (x + 2)
  else []
termination_by w2 - x
decreasing_by omega

/-- The outer loop of `imageToAnsi`: `for y := 0; y < height*2; y += 2`,
emitting a newline after each row. -/
def ansiImageLoop (resized : ImageM) (w2 h2 : Nat) (use256Colors : Bool) (y : Nat) :
    List Char :=
  if _h : y < h2 then
    ansiRowLoop resized w2 y use256Colors 0 ++
      '\n' :: ansiImageLoop resized w2 h2 use256Colors (y + 2)
  else []
termination_by h2 - y
decreasing_by omega

/-- Models `imageToAnsi` (src/unnamed/part_002, lines 301–339): resize the
source to twice the glyph grid in each axis, then scan 2×2 blocks into
half-block cells. -/
def imageToAnsi (img : SourceImage) (width height : Nat) (use256Colors : Bool) :
    List Char :=
  let resized := resizeImage img (width * 2) (height * 2)
  ansiImageLoop resized (width * 2) (height * 2) use256Colors 0

/-! ## Layout arithmetic of `displayCard` -/

/-- The visible width of a line: characters surviving `stripAnsi`
(src/unnamed/part_002, line 468). -/
def visibleWidth (line : List Char) : Nat := (stripAnsi line).length

/-- The running-maximum loop over art lines (src/unnamed/part_002,
lines 465–472). -/
def maxAnsiWidth (lines : List (List Char)) : Nat :=
  lines.foldl (fun m line => if visibleWidth line > m then visibleWidth line else m) 0

/-- `infoStartCol := maxAnsiWidth + spacing` with `spacing = 4`
(src/unnamed/part_002, lines 510–511). -/
def infoStartCol (lines : List (List Char)) : Nat := maxAnsiWidth lines + 4

/-- The info-column width computation of `displayCard`
(src/unnamed/part_002, lines 508–517): terminal width minus the art column
start minus a 2-column margin, raised to 20 when below it. -/
def computeInfoWidth (width maxWidth : Int) : Int :=
  let spacing : Int := 4
  let start := maxWidth + spacing
  let infoWidth := width - start - 2
  if infoWidth < 20 then 20 else infoWidth

deriving instance DecidableEq for Except

/-! ## Filesystem model and the art lookup (`findAnsiFile` and friends)

The file-lookup code of src/unnamed/part_002 runs over the OS filesystem
through `os.Stat`, `os.ReadDir`, `os.ReadFile`, `os.WriteFile` and
`os.MkdirAll`. We model a filesystem state as a list of (path, contents)
files plus a set of directories; `mkdirOk` models whether creating the
cache directory succeeds (permissions are not otherwise modelled). Paths
are character lists so that every lookup computes by structural
recursion. -/

/-- A filesystem path. -/
abbrev FPath := List Char

structure FS where
  files : List (FPath × List Char)
  dirs : List FPath
  mkdirOk : Bool
deriving DecidableEq

/-- `os.ReadFile`: the newest write to a path wins. -/
def FS.read (fs : FS) (p : FPath) : Option (List Char) := fs.files.lookup p

/-- Whether a regular file exists at `p`. -/
def FS.statFile (fs : FS) (p : FPath) : Bool := (fs.read p).isSome

/-- Whether a directory exists at `p`. -/
def FS.statDir (fs : FS) (p : FPath) : Bool := fs.dirs.contains p

/-- `os.Stat` existence check (`!os.IsNotExist(err)`): the path names a
file or a directory. -/
def FS.stat (fs : FS) (p : FPath) : Bool := fs.statFile p || fs.statDir p

/-- `os.WriteFile`: create or overwrite. -/
def FS.write (fs : FS) (p : FPath) (c : List Char) : FS :=
  ⟨(p, c) :: fs.files, fs.dirs, fs.mkdirOk⟩

/-- `filepath.Join` on the clean relative names used by the code. -/
def joinPath (a b : FPath) : FPath := a ++ '/' :: b

/-- The subdirectory entries of `base`, as `os.ReadDir` reports them
(entries that are not directories are skipped by the caller, so only
directories are listed). -/
def FS.readDirEntries (fs : FS) (base : FPath) : List FPath :=
  fs.dirs.filterMap fun d =>
    if (base ++ ['/']).isPrefixOf d then
      let rest := d.drop (base.length + 1)
      if rest.contains '/' || rest = [] then none else some rest
    else none

/-- Models Go `strings.Split` with a one-character separator. -/
def splitOnChar (sep : Char) : List Char → List (List Char)
  | [] => [[]]
  | c :: rest =>
    if c = sep then [] :: splitOnChar sep rest
    else
      match splitOnChar sep rest with
      | [] => [[c]]
      | w :: ws => (c :: w) :: ws

/-- Models `buildCardPath` (src/unnamed/part_002, lines 182–198): the
if-chain over the card-id segments. -/
def buildCardPath (baseDir : FPath) (parts : List FPath) (extension : FPath) :
    Except String FPath :=
  if parts.headD [] = "major_arcana".toList ∧ parts.length = 2 then
    .ok (joinPath (joinPath baseDir ("major_arcana".toList))
      (parts.getD 1 [] ++ extension))
  else if parts.headD [] = "minor_arcana".toList ∧ parts.length = 3 then
    .ok (joinPath (joinPath (joinPath baseDir ("minor_arcana".toList))
      (parts.getD 1 [])) (parts.getD 2 [] ++ extension))
  else if parts.headD [] = "custom_cards".toList ∧ parts.length = 3 then
    .ok (joinPath (joinPath (joinPath baseDir (parts.getD 0 []))
      (parts.getD 1 [])) (parts.getD 2 [] ++ extension))
  else if parts.headD [] = "custom_cards".toList ∧ parts.length = 4 then
    .ok (joinPath (joinPath (joinPath (joinPath baseDir (parts.getD 0 []))
      (parts.getD 1 [])) (parts.getD 2 [])) (parts.getD 3 [] ++ extension))
  else .error ("invalid card ID format: " ++ String.mk (List.intercalate ['.'] parts))

/-- First hit of an early-return `for` loop. -/
def firstSome : List α → (α → Option β) → Option β
  | [], _ => none
  | a :: rest, f =>
    match f a with
    | some b => some b
    | none => firstSome rest f

/-- The image-directory priority list of `findCardImage`. -/
def imageDirs : List FPath :=
  ["scalable".toList, "h2400".toList, "h1200".toList, "h750".toList]

/-- The extension priority list of `findCardImage`. -/
def imageExtensions : List FPath :=
  [".svg".toList, ".png".toList, ".jpg".toList, ".jpeg".toList, ".webp".toList]

/-- The inner extension loop of `findCardImage`: for each extension, build
the candidate path and return it if something exists there. -/
def tryDirExts (fs : FS) (dirPath : FPath) (parts : List FPath) : Option FPath :=
  firstSome imageExtensions fun ext =>
    match buildCardPath dirPath parts ext with
    | .ok path => if fs.stat path then some path else none
    | .error _ => none

/-- One fallback-directory attempt of `findCardImage` (src/unnamed/part_002,
lines 235–256): skip the known non-image directories, then try every
extension under the entry. -/
def fallbackTry (fs : FS) (deckPath : FPath) (parts : List FPath) (name : FPath) :
    Option FPath :=
  if name = "ansi32".toList || name = "ansi256".toList ||
      name = "card_backs".toList || name = "names".toList ||
      imageDirs.contains name then none
  else tryDirExts fs (joinPath deckPath name) parts

/-- Models `findCardImage` (src/unnamed/part_002, lines 200–259): search
the standard image directories in priority order, then every other
subdirectory of the deck. -/
def findCardImage (fs : FS) (deckPath : FPath) (parts : List FPath) :
    Except String FPath :=
  match firstSome imageDirs (fun dir =>
      let dirPath := joinPath deckPath dir
      if fs.stat dirPath then tryDirExts fs dirPath parts else none) with
  | some p => .ok p
  | none =>
    match firstSome (fs.readDirEntries deckPath) (fallbackTry fs deckPath parts) with
    | some p => .ok p
    | none => .error "no image found for card"

/-- One pre-made-art directory check of `findAnsiFile` (src/unnamed/part_002,
lines 123–145), for `ansi32` or `ansi256`. -/
def tryPremadeDir (fs : FS) (deckPath dirName : FPath) (parts : List FPath) :
    Option FPath :=
  let ansiDir := joinPath deckPath dirName
  if fs.stat ansiDir then
    match buildCardPath ansiDir parts (".ansi".toList) with
    | .ok path => if fs.stat path then some path else none
    | .error _ => none
  else none

/-- Models `generateAnsiArt` (src/unnamed/part_002, lines 272–298): open
and decode the source image (`decode` stands for the registered
`image.Decode` codecs), render it at the fixed 40×32 glyph grid in
truecolor mode, and write the result. -/
def generateAnsiArt (decode : List Char → Option SourceImage) (fs : FS)
    (imagePath outputPath : FPath) : Except String FS :=
  match fs.read imagePath with
  | none => .error "failed to open image"
  | some data =>
    match decode data with
    | none => .error "failed to decode image"
    | some img =>
      let ansiArt := imageToAnsi img 40 32 true
      .ok (fs.write outputPath ansiArt)

/-- The cache path `findAnsiFile` derives for a source image:
`cacheBase/ansi_cache/<hex md5 of the path>.ansi` (`hash` stands for the
hex-encoded `md5.Sum`). -/
def cachePathFor (hash : FPath → FPath) (cacheBase imagePath : FPath) : FPath :=
  joinPath (joinPath cacheBase ("ansi_cache".toList)) (hash imagePath ++ ".ansi".toList)

/-- Models `findAnsiFile` (src/unnamed/part_002, lines 112–179): prefer
pre-made `.ansi` assets (`ansi32` then `ansi256`); otherwise locate a
source image, ensure the cache directory exists (fatal on failure),
return the cached rendering when present, and otherwise generate and
cache one. Returns the art path and the possibly-updated filesystem. -/
def findAnsiFile (hash : FPath → FPath) (decode : List Char → Option SourceImage)
    (cacheBase : FPath) (fs : FS) (deckPath cardID : FPath) :
    Except String (FPath × FS) :=
  let parts := splitOnChar '.' cardID
  if parts.length < 2 then .error ("invalid card ID format: " ++ String.mk cardID)
  else
    match
      match tryPremadeDir fs deckPath ("ansi32".toList) parts with
      | some p => some p
      | none => tryPremadeDir fs deckPath ("ansi256".toList) parts
    with
    | some p => .ok (p, fs)
    | none =>
      match findCardImage fs deckPath parts with
      | .error _ =>
        .error ("no ANSI art or convertible images found for card: " ++ String.mk cardID)
      | .ok imagePath =>
        if fs.mkdirOk then
          let cachePath := cachePathFor hash cacheBase imagePath
          if fs.stat cachePath then .ok (cachePath, fs)
          else
            match generateAnsiArt decode fs imagePath cachePath with
            | .error e => .error ("failed to generate ANSI art: " ++ e)
            | .ok fs1 => .ok (cachePath, fs1)
        else .error "failed to create ANSI cache directory"

/-- Models the art portion of the `show` command (src/unnamed/part_002,
lines 87–96): `findAnsiFile` followed by `loadAnsiArt` (a file read). -/
def renderCardArt (hash : FPath → FPath) (decode : List Char → Option SourceImage)
    (cacheBase : FPath) (fs : FS) (deckPath cardID : FPath) :
    Except String (List Char × FS) :=
  match findAnsiFile hash decode cacheBase fs deckPath cardID with
  | .error e => .error e
  | .ok (path, fs1) =>
    match fs1.read path with
    | none => .error "error loading ANSI art"
    | some art => .ok (art, fs1)

example : wrapText ("a bb ccc dddd".toList) 4 = ["a bb ccc dddd".toList] := by decide

example : wrapText ("a bb ccc dddd".toList) 10 =
    ["a bb ccc".toList, "dddd".toList] := by decide

example : stripAnsi ("\x1b[38;2;1;2;3mX\x1b[0m".toList) = ['X'] := by decide

/-! ## Helper lemmas -/

lemma foldl_add_comp (f : ColorF → ℚ) (l : List ColorF) (a : ℚ) :
    l.foldl (fun s c => s + f c) a = a + (l.map f).sum := by
  induction l generalizing a with
  | nil => simp
  | cons x xs ih => simp [ih]; ring

lemma maxWidthFold_ge_seed (lines : List (List Char)) (a : Nat) :
    a ≤ lines.foldl
      (fun m line => if visibleWidth line > m then visibleWidth line else m) a := by
  induction lines generalizing a with
  | nil => simp
  | cons x xs ih =>
    simp only [List.foldl_cons]
    have h1 : a ≤ if visibleWidth x > a then visibleWidth x else a := by
      split <;> omega
    exact le_trans h1 (ih _)

lemma visibleWidth_le_maxWidthFold (lines : List (List Char)) (line : List Char)
    (h : line ∈ lines) (a : Nat) :
    visibleWidth line ≤ lines.foldl
      (fun m l => if visibleWidth l > m then visibleWidth l else m) a := by
  induction lines generalizing a with
  | nil => cases h
  | cons x xs ih =>
    simp only [List.foldl_cons]
    rcases List.mem_cons.mp h with rfl | hmem
    · have h1 : visibleWidth line ≤
          if visibleWidth line > a then visibleWidth line else a := by
        split <;> omega
      exact le_trans h1 (maxWidthFold_ge_seed xs _)
    · exact ih hmem _

/-! ## Claim C2 -/

/-- C2 (counterexample): at requested width 4, `wrapText` does not return
the three lines `["a bb", "ccc", "dddd"]` the specification predicts. -/
theorem wrapText_c2_counterexample :
    wrapText ("a bb ccc dddd".toList) 4 ≠
      ["a bb".toList, "ccc".toList, "dddd".toList] := by decide

/-- C2 (amended): `wrapText` clamps every width below 10 to 40, so for the
input "a bb ccc dddd" and column width 4 it returns the single line
"a bb ccc dddd". -/
theorem wrapText_c2_amended :
    wrapText ("a bb ccc dddd".toList) 4 = ["a bb ccc dddd".toList] := by decide

/-! ## Claim C9 -/

/-- C9: for every text and every requested width strictly below 10,
`wrapText` behaves exactly as if the width were 40, so no wrapping at
widths below 10 is ever performed. -/
theorem wrapText_clamp_below_ten (text : List Char) (w : Int) (h : w < 10) :
    wrapText text w = wrapText text 40 := by
  simp only [wrapText]
  rw [if_pos h]
  norm_num

theorem wrapText_clamp_below_ten_witness :
    wrapText ("lorem ipsum dolor sit amet".toList) 4 =
      wrapText ("lorem ipsum dolor sit amet".toList) 40 :=
  wrapText_clamp_below_ten _ 4 (by norm_num)

/-! ## Claim C5 -/

/-- C5: `averageColor` is commutative — `averageColor [c1, c2]` equals
`averageColor [c2, c1]` — and order-independent: any permutation of its
argument list produces the same output colour. -/
theorem averageColor_comm_perm (c1 c2 : ColorF) (l1 l2 : List ColorF)
    (hp : l1.Perm l2) :
    averageColor [c1, c2] = averageColor [c2, c1] ∧
    averageColor l1 = averageColor l2 := by
  constructor
  · simp only [averageColor, List.foldl, List.length, ColorF.mk.injEq]
    refine ⟨by ring_nf, by ring_nf, by ring_nf⟩
  · have hlen := hp.length_eq
    simp only [averageColor, foldl_add_comp, ColorF.mk.injEq]
    refine ⟨?_, ?_, ?_⟩ <;> rw [hlen, List.Perm.sum_eq (hp.map _)]

theorem averageColor_comm_perm_witness :
    averageColor [(⟨1, 2, 3⟩ : ColorF), ⟨4, 5, 6⟩] =
      averageColor [(⟨4, 5, 6⟩ : ColorF), ⟨1, 2, 3⟩] ∧
    averageColor [(⟨1, 2, 3⟩ : ColorF), ⟨4, 5, 6⟩] =
      averageColor [(⟨4, 5, 6⟩ : ColorF), ⟨1, 2, 3⟩] :=
  averageColor_comm_perm ⟨1, 2, 3⟩ ⟨4, 5, 6⟩ _ _ (List.Perm.swap _ _ [])

/-! ## Claim C7 -/

/-- C7: the computed info column width equals the terminal width minus the
art column start (widest art line plus the 4-column gutter) minus the
2-column margin, clamped below to 20; at terminal width 5 with art width
100 it is exactly 20; and it is never negative. -/
theorem computeInfoWidth_spec :
    (∀ width maxWidth : Int,
      computeInfoWidth width maxWidth = max (width - (maxWidth + 4) - 2) 20) ∧
    computeInfoWidth 5 100 = 20 ∧
    (∀ width maxWidth : Int, 0 ≤ computeInfoWidth width maxWidth) := by
  refine ⟨?_, by decide, ?_⟩ <;>
    (intro w m; simp only [computeInfoWidth]; split <;> omega)

/-! ## Claim C10 -/

/-- C10: each art line's visible (ANSI-stripped) width is at most the
maximum over all art lines, so the padding `infoStartCol - visibleWidth`
is at least the 4-column gutter (in particular non-negative), and the
other print-loop branch's count `infoStartCol` is non-negative as well:
`strings.Repeat` never receives a negative count. -/
theorem displayCard_padding_safe (lines : List (List Char)) (line : List Char)
    (h : line ∈ lines) :
    visibleWidth line ≤ maxAnsiWidth lines ∧
    4 ≤ (infoStartCol lines : Int) - (visibleWidth line : Int) ∧
    0 ≤ (infoStartCol lines : Int) := by
  have hb := visibleWidth_le_maxWidthFold lines line h 0
  have hb2 : visibleWidth line ≤ maxAnsiWidth lines := hb
  refine ⟨hb2, ?_, ?_⟩ <;> (simp only [infoStartCol]; push_cast; omega)

theorem displayCard_padding_safe_witness :
    visibleWidth ['c'] ≤ maxAnsiWidth [['a', 'b'], ['c']] ∧
    4 ≤ (infoStartCol [['a', 'b'], ['c']] : Int) - (visibleWidth ['c'] : Int) ∧
    0 ≤ (infoStartCol [['a', 'b'], ['c']] : Int) :=
  displayCard_padding_safe [['a', 'b'], ['c']] ['c'] (by decide)

/-! ## Claim C6 -/

lemma digitChar_ne (d : Nat) : digitChar d ≠ 'm' ∧ digitChar d ≠ '\x1b' := by
  have h : d % 10 = 0 ∨ d % 10 = 1 ∨ d % 10 = 2 ∨ d % 10 = 3 ∨ d % 10 = 4 ∨
      d % 10 = 5 ∨ d % 10 = 6 ∨ d % 10 = 7 ∨ d % 10 = 8 ∨ d % 10 = 9 := by omega
  unfold digitChar
  rcases h with h|h|h|h|h|h|h|h|h|h <;> rw [h] <;> exact ⟨by decide, by decide⟩

lemma natDecimal_ne (n : Nat) : ∀ c ∈ natDecimal n, c ≠ 'm' ∧ c ≠ '\x1b' := by
  induction n using Nat.strong_induction_on with
  | _ n ih =>
    unfold natDecimal
    split
    · intro c hc
      simp only [List.mem_singleton] at hc
      subst hc
      exact digitChar_ne n
    · intro c hc
      rcases List.mem_append.mp hc with h1 | h2
      · exact ih (n / 10) (Nat.div_lt_self (by omega) (by norm_num)) c h1
      · simp only [List.mem_singleton] at h2
        subst h2
        exact digitChar_ne n

lemma notm_natDecimal (n : Nat) : ∀ c ∈ natDecimal n, c ≠ 'm' :=
  fun c h => (natDecimal_ne n c h).1

lemma aux_false_esc (t : List Char) :
    stripAnsiAux false ('\x1b' :: t) = stripAnsiAux true t := by
  simp [stripAnsiAux]

lemma aux_true_m (t : List Char) :
    stripAnsiAux true ('m' :: t) = stripAnsiAux false t := by
  simp [stripAnsiAux]

lemma aux_true_cons (c : Char) (t : List Char) (h : c ≠ 'm') :
    stripAnsiAux true (c :: t) = stripAnsiAux true t := by
  simp [stripAnsiAux, h]

lemma aux_true_append (l t : List Char) (h : ∀ c ∈ l, c ≠ 'm') :
    stripAnsiAux true (l ++ t) = stripAnsiAux true t := by
  induction l with
  | nil => rfl
  | cons c cs ih =>
    rw [List.cons_append, aux_true_cons c _ (h c (List.mem_cons_self c cs))]
    exact ih fun x hx => h x (List.mem_cons_of_mem _ hx)

lemma aux_false_keep (c : Char) (t : List Char) (h : c ≠ '\x1b') :
    stripAnsiAux false (c :: t) = c :: stripAnsiAux false t := by
  simp [stripAnsiAux, h]

/-- C6: for every foreground and background colour, stripping the ANSI
escapes from the truecolor glyph cell emitted by `ansiColorString` leaves
exactly the one half-block glyph character — a string of length exactly
one, never zero, never more. -/
theorem stripAnsi_glyph_cell (fg bg : GoColor) :
    stripAnsi (ansiColorString '▀' fg bg true) = ['▀'] ∧
    (stripAnsi (ansiColorString '▀' fg bg true)).length = 1 := by
  have key : stripAnsi (ansiColorString '▀' fg bg true) = ['▀'] := by
    unfold ansiColorString stripAnsi
    simp only [if_true, List.append_assoc, List.cons_append, List.nil_append,
      List.append_nil]
    repeat first
      | rw [aux_false_esc]
      | rw [aux_true_m]
      | rw [aux_true_append _ _ (notm_natDecimal _)]
      | rw [aux_true_cons _ _ (by decide)]
      | rw [aux_false_keep _ _ (by decide)]
    simp [stripAnsiAux]
  exact ⟨key, by rw [key]; rfl⟩

/-! ## Claim C4 -/

lemma ansiRowLoop_flat (resized : ImageM) (W y : Nat) (m : Bool) :
    ∀ n k, W - k = n →
      ansiRowLoop resized (W * 2) y m (2 * k) =
        (List.range (W - k)).flatMap
          (fun j => cellString resized (2 * (k + j)) y m) := by
  intro n
  induction n with
  | zero =>
    intro k hk
    have hnl : ¬ (2 * k < W * 2) := by omega
    rw [ansiRowLoop, dif_neg hnl, hk]
    simp
  | succ n ih =>
    intro k hk
    have hlt : 2 * k < W * 2 := by omega
    have h2 : 2 * k + 2 = 2 * (k + 1) := by ring
    rw [ansiRowLoop, dif_pos hlt, h2, ih (k + 1) (by omega), hk,
      show W - (k + 1) = n by omega, List.range_succ_eq_map]
    have harg : ∀ j : Nat, k + 1 + j = k + (j + 1) := fun j => by omega
    simp only [List.flatMap_cons, List.flatMap_map, Function.comp,
      Nat.succ_eq_add_one, Nat.add_zero, List.append_assoc,
      List.singleton_append, harg]

lemma ansiImageLoop_flat (resized : ImageM) (W H : Nat) (m : Bool) :
    ∀ n k, H - k = n →
      ansiImageLoop resized (W * 2) (H * 2) m (2 * k) =
        (List.range (H - k)).flatMap
          (fun r => ansiRowLoop resized (W * 2) (2 * (k + r)) m 0 ++ ['\n']) := by
  intro n
  induction n with
  | zero =>
    intro k hk
    have hnl : ¬ (2 * k < H * 2) := by omega
    rw [ansiImageLoop, dif_neg hnl, hk]
    simp
  | succ n ih =>
    intro k hk
    have hlt : 2 * k < H * 2 := by omega
    have h2 : 2 * k + 2 = 2 * (k + 1) := by ring
    rw [ansiImageLoop, dif_pos hlt, h2, ih (k + 1) (by omega), hk,
      show H - (k + 1) = n by omega, List.range_succ_eq_map]
    have harg : ∀ r : Nat, k + 1 + r = k + (r + 1) := fun r => by omega
    simp only [List.flatMap_cons, List.flatMap_map, Function.comp,
      Nat.succ_eq_add_one, Nat.add_zero, List.append_assoc,
      List.singleton_append, harg]

lemma imageToAnsi_flat (img : SourceImage) (W H : Nat) (m : Bool) :
    imageToAnsi img W H m =
      (List.range H).flatMap (fun r =>
        (List.range W).flatMap (fun c =>
          cellString (resizeImage img (W * 2) (H * 2)) (2 * c) (2 * r) m) ++ ['\n']) := by
  unfold imageToAnsi
  have h0 := ansiImageLoop_flat (resizeImage img (W * 2) (H * 2)) W H m H 0 (by omega)
  rw [show (2 * 0 : Nat) = 0 by norm_num] at h0
  rw [h0]
  simp only [Nat.sub_zero, Nat.zero_add]
  have hfun : ∀ r : Nat,
      ansiRowLoop (resizeImage img (W * 2) (H * 2)) (W * 2) (2 * r) m 0 =
        (List.range W).flatMap
          (fun c => cellString (resizeImage img (W * 2) (H * 2)) (2 * c) (2 * r) m) := by
    intro r
    have hr := ansiRowLoop_flat (resizeImage img (W * 2) (H * 2)) W (2 * r) m W 0
      (by omega)
    rw [show (2 * 0 : Nat) = 0 by norm_num] at hr
    rw [hr]
    simp only [Nat.sub_zero, Nat.zero_add]
  simp only [hfun]

/-- A small concrete decoded image used to exercise the pipeline. -/
def testImage : SourceImage :=
  ⟨⟨0, 0, 1, 1, fun _ _ => ⟨65535, 0, 0, 65535⟩⟩,
   fun _ _ _ _ => ⟨30000, 20000, 10000, 65535⟩⟩

/-- C4: the resize step produces a buffer of exactly 2W × 2H pixels
whatever the source image; the conversion loop visits row-major glyph
cells reading exactly the 2×2 sub-pixel block at (2c, 2r) per cell (the
cell output depends on no other pixel); and out-of-bounds reads return
opaque black. -/
theorem imageToAnsi_downsample_grid (img : SourceImage) (W H : Nat) (m : Bool)
    (_hW : 0 < W) (_hH : 0 < H) :
    ((resizeImage img (W * 2) (H * 2)).minX = 0 ∧
     (resizeImage img (W * 2) (H * 2)).minY = 0 ∧
     (resizeImage img (W * 2) (H * 2)).maxX = ((W * 2 : Nat) : Int) ∧
     (resizeImage img (W * 2) (H * 2)).maxY = ((H * 2 : Nat) : Int)) ∧
    imageToAnsi img W H m =
      (List.range H).flatMap (fun r =>
        (List.range W).flatMap (fun c =>
          cellString (resizeImage img (W * 2) (H * 2)) (2 * c) (2 * r) m) ++ ['\n']) ∧
    (∀ i1 i2 : ImageM, ∀ x y : Nat, ∀ mode : Bool,
      getColorAt i1 x y = getColorAt i2 x y →
      getColorAt i1 (x + 1 : Nat) y = getColorAt i2 (x + 1 : Nat) y →
      getColorAt i1 x (y + 1 : Nat) = getColorAt i2 x (y + 1 : Nat) →
      getColorAt i1 (x + 1 : Nat) (y + 1 : Nat) = getColorAt i2 (x + 1 : Nat) (y + 1 : Nat) →
      cellString i1 x y mode = cellString i2 x y mode) ∧
    (∀ im : ImageM, ∀ x y : Int,
      ¬ (im.minX ≤ x ∧ x < im.maxX ∧ im.minY ≤ y ∧ y < im.maxY) →
      getColorAt im x y = ⟨0, 0, 0, 65535⟩) := by
  refine ⟨⟨rfl, rfl, rfl, rfl⟩, imageToAnsi_flat img W H m, ?_, ?_⟩
  · intro i1 i2 x y mode h1 h2 h3 h4
    push_cast at h1 h2 h3 h4
    simp only [cellString]
    rw [h1, h2, h3, h4]
  · intro im x y h
    simp only [getColorAt, if_neg h]

theorem imageToAnsi_downsample_grid_witness :
    ((resizeImage testImage (1 * 2) (1 * 2)).minX = 0 ∧
     (resizeImage testImage (1 * 2) (1 * 2)).minY = 0 ∧
     (resizeImage testImage (1 * 2) (1 * 2)).maxX = ((1 * 2 : Nat) : Int) ∧
     (resizeImage testImage (1 * 2) (1 * 2)).maxY = ((1 * 2 : Nat) : Int)) ∧
    getColorAt (resizeImage testImage (1 * 2) (1 * 2)) 5 0 = ⟨0, 0, 0, 65535⟩ :=
  ⟨(imageToAnsi_downsample_grid testImage 1 1 true (by norm_num) (by norm_num)).1,
   (imageToAnsi_downsample_grid testImage 1 1 true (by norm_num) (by norm_num)).2.2.2
     (resizeImage testImage (1 * 2) (1 * 2)) 5 0 (by decide)⟩

/-! ## Frame lemmas: how a cache write affects later lookups -/

lemma FS.read_write_self (fs : FS) (p : FPath) (c : List Char) :
    (fs.write p c).read p = some c := by
  simp [FS.read, FS.write, List.lookup]

lemma FS.read_write_ne (fs : FS) (p : FPath) (c : List Char) (q : FPath)
    (h : q ≠ p) : (fs.write p c).read q = fs.read q := by
  have hb : (q == p) = false := beq_eq_false_iff_ne.mpr h
  simp [FS.read, FS.write, List.lookup, hb]

lemma FS.stat_write_self (fs : FS) (p : FPath) (c : List Char) :
    (fs.write p c).stat p = true := by
  simp [FS.stat, FS.statFile, FS.read_write_self]

lemma FS.stat_write_ne (fs : FS) (p : FPath) (c : List Char) (q : FPath)
    (h : q ≠ p) : (fs.write p c).stat q = fs.stat q := by
  unfold FS.stat FS.statFile
  rw [FS.read_write_ne fs p c q h]
  rfl

lemma FS.readDirEntries_write (fs : FS) (p : FPath) (c : List Char) (b : FPath) :
    (fs.write p c).readDirEntries b = fs.readDirEntries b := rfl

lemma FS.mkdirOk_write (fs : FS) (p : FPath) (c : List Char) :
    (fs.write p c).mkdirOk = fs.mkdirOk := rfl

lemma firstSome_congr {α β : Type} (l : List α) (f g : α → Option β)
    (h : ∀ a ∈ l, f a = g a) : firstSome l f = firstSome l g := by
  induction l with
  | nil => rfl
  | cons a rest ih =>
    simp only [firstSome, h a (List.mem_cons_self a rest)]
    cases g a with
    | some b => rfl
    | none => exact ih fun x hx => h x (List.mem_cons_of_mem _ hx)

lemma tryDirExts_write (fs : FS) (p : FPath) (c : List Char) (dirPath : FPath)
    (parts : List FPath)
    (h : ∀ ext ∈ imageExtensions,
      (buildCardPath dirPath parts ext).toOption ≠ some p) :
    tryDirExts (fs.write p c) dirPath parts = tryDirExts fs dirPath parts := by
  unfold tryDirExts
  apply firstSome_congr
  intro ext hext
  cases hbc : buildCardPath dirPath parts ext with
  | error e => rfl
  | ok path =>
    have hne : path ≠ p := by
      have hh := h ext hext
      rw [hbc] at hh
      simpa [Except.toOption] using hh
    simp only [FS.stat_write_ne fs p c path hne]

lemma tryPremadeDir_write (fs : FS) (p : FPath) (c : List Char)
    (deckPath dirName : FPath) (parts : List FPath)
    (hdir : joinPath deckPath dirName ≠ p)
    (hfile : (buildCardPath (joinPath deckPath dirName) parts
      (".ansi".toList)).toOption ≠ some p) :
    tryPremadeDir (fs.write p c) deckPath dirName parts =
      tryPremadeDir fs deckPath dirName parts := by
  unfold tryPremadeDir
  cases hbc : buildCardPath (joinPath deckPath dirName) parts (".ansi".toList) with
  | error e =>
    simp only [FS.stat_write_ne fs p c (joinPath deckPath dirName) hdir, hbc]
  | ok path =>
    have hne : path ≠ p := by
      rw [hbc] at hfile
      simpa [Except.toOption] using hfile
    simp only [FS.stat_write_ne fs p c (joinPath deckPath dirName) hdir, hbc,
      FS.stat_write_ne fs p c path hne]

lemma findCardImage_write (fs : FS) (p : FPath) (c : List Char)
    (deckPath : FPath) (parts : List FPath)
    (hdirs : ∀ dir ∈ imageDirs, joinPath deckPath dir ≠ p)
    (hcand : ∀ dir ∈ imageDirs, ∀ ext ∈ imageExtensions,
      (buildCardPath (joinPath deckPath dir) parts ext).toOption ≠ some p)
    (hfall : ∀ name ∈ fs.readDirEntries deckPath, ∀ ext ∈ imageExtensions,
      (buildCardPath (joinPath deckPath name) parts ext).toOption ≠ some p) :
    findCardImage (fs.write p c) deckPath parts = findCardImage fs deckPath parts := by
  unfold findCardImage
  rw [FS.readDirEntries_write]
  have h1 : firstSome imageDirs (fun dir =>
      let dirPath := joinPath deckPath dir
      if (fs.write p c).stat dirPath then tryDirExts (fs.write p c) dirPath parts
      else none) =
    firstSome imageDirs (fun dir =>
      let dirPath := joinPath deckPath dir
      if fs.stat dirPath then tryDirExts fs dirPath parts else none) := by
    apply firstSome_congr
    intro dir hdir
    simp only [FS.stat_write_ne fs p c (joinPath deckPath dir) (hdirs dir hdir),
      tryDirExts_write fs p c (joinPath deckPath dir) parts (hcand dir hdir)]
  have h2 : firstSome (fs.readDirEntries deckPath)
      (fallbackTry (fs.write p c) deckPath parts) =
    firstSome (fs.readDirEntries deckPath) (fallbackTry fs deckPath parts) := by
    apply firstSome_congr
    intro name hname
    unfold fallbackTry
    split
    · rfl
    · exact tryDirExts_write fs p c _ parts (hfall name hname)
  rw [h1, h2]

/-! ## Concrete fixtures -/

/-- A stand-in for the hex-encoded md5 hash on the paths exercised below. -/
def testHashFn : FPath → FPath := fun _ => "abc123".toList

/-- A decoder that fails on every input. -/
def testDecodeNone : List Char → Option SourceImage := fun _ => none

/-- A decoder that succeeds with `testImage` on every input. -/
def testDecodeConst : List Char → Option SourceImage := fun _ => some testImage

/-- No pre-made art, a findable source image, but cache-directory creation
fails. -/
def fsC1 : FS :=
  ⟨[("deck/h750/major_arcana/00.png".toList, "IMG".toList)],
   ["deck".toList, "deck/h750".toList], false⟩

/-- A cached rendering exists but the source image has been deleted. -/
def fsC3 : FS :=
  ⟨[("cache/ansi_cache/abc123.ansi".toList, "ART".toList)], ["deck".toList], true⟩

/-- A cached rendering exists and the source image is still present. -/
def fsC3b : FS :=
  ⟨[("cache/ansi_cache/abc123.ansi".toList, "ART".toList),
    ("deck/h750/major_arcana/00.png".toList, "IMG".toList)],
   ["deck".toList, "deck/h750".toList], true⟩

/-- No pre-made art, a findable and decodable source image, an empty
cache, and a working cache directory. -/
def fsC8 : FS :=
  ⟨[("deck/h750/major_arcana/00.png".toList, "IMG".toList)],
   ["deck".toList, "deck/h750".toList], true⟩

/-! ## Claim C1 -/

/-- C1 (counterexample): with no pre-made art, a findable source image and
a cache directory that cannot be created, the render does not succeed —
`findAnsiFile` aborts with the cache-directory error instead of bypassing
the cache. -/
theorem findAnsiFile_mkdir_fail_counterexample :
    findCardImage fsC1 ("deck".toList) (splitOnChar '.' ("major_arcana.00".toList)) =
      .ok ("deck/h750/major_arcana/00.png".toList) ∧
    fsC1.mkdirOk = false ∧
    findAnsiFile testHashFn testDecodeNone ("cache".toList) fsC1 ("deck".toList)
        ("major_arcana.00".toList) =
      .error "failed to create ANSI cache directory" := by decide

/-- C1 (amended): if the ANSI cache directory cannot be created during a
render whose art must be generated from an image, the whole operation
fails with the error "failed to create ANSI cache directory" — the cache
failure is fatal, not bypassed. -/
theorem findAnsiFile_mkdir_fail_fatal
    (hash : FPath → FPath) (decode : List Char → Option SourceImage)
    (cacheBase : FPath) (fs : FS) (deckPath cardID imagePath : FPath)
    (hlen : ¬ (splitOnChar '.' cardID).length < 2)
    (hpre32 : tryPremadeDir fs deckPath ("ansi32".toList)
      (splitOnChar '.' cardID) = none)
    (hpre256 : tryPremadeDir fs deckPath ("ansi256".toList)
      (splitOnChar '.' cardID) = none)
    (himg : findCardImage fs deckPath (splitOnChar '.' cardID) = .ok imagePath)
    (hmk : fs.mkdirOk = false) :
    findAnsiFile hash decode cacheBase fs deckPath cardID =
      .error "failed to create ANSI cache directory" := by
  unfold findAnsiFile
  rw [if_neg hlen]
  simp only [hpre32, hpre256, himg, hmk, Bool.false_eq_true, if_false]

theorem findAnsiFile_mkdir_fail_fatal_witness :
    findAnsiFile testHashFn testDecodeNone ("cache".toList) fsC1 ("deck".toList)
        ("major_arcana.00".toList) =
      .error "failed to create ANSI cache directory" :=
  findAnsiFile_mkdir_fail_fatal testHashFn testDecodeNone ("cache".toList) fsC1
    ("deck".toList) ("major_arcana.00".toList)
    ("deck/h750/major_arcana/00.png".toList)
    (by decide) (by decide) (by decide) (by decide) (by decide)

/-! ## Claim C3 -/

/-- C3 (counterexample): a cache entry for the card's (deleted) source
image exists, yet the request fails with "no ANSI art or convertible
images found" instead of returning the cached contents: the cache path is
derived from the resolved image path, so a deleted source image makes the
lookup fail before the cache is ever consulted. -/
theorem renderCardArt_deleted_source_counterexample :
    fsC3.read ("cache/ansi_cache/abc123.ansi".toList) = some ("ART".toList) ∧
    renderCardArt testHashFn testDecodeNone ("cache".toList) fsC3 ("deck".toList)
        ("major_arcana.00".toList) =
      .error "no ANSI art or convertible images found for card: major_arcana.00" := by
  decide

/-- C3 (amended): for a card with no pre-made `.ansi` asset whose source
image is still resolvable, a cache hit returns the cached file contents
verbatim, without re-invoking the render pipeline (the result holds for
every decoder and leaves the filesystem untouched) — but only while the
source image file still exists; the theorem's `findCardImage` hypothesis
is what a deleted source image breaks. -/
theorem renderCardArt_cache_hit
    (hash : FPath → FPath) (decode : List Char → Option SourceImage)
    (cacheBase : FPath) (fs : FS) (deckPath cardID imagePath : FPath)
    (art : List Char)
    (hlen : ¬ (splitOnChar '.' cardID).length < 2)
    (hpre32 : tryPremadeDir fs deckPath ("ansi32".toList)
      (splitOnChar '.' cardID) = none)
    (hpre256 : tryPremadeDir fs deckPath ("ansi256".toList)
      (splitOnChar '.' cardID) = none)
    (himg : findCardImage fs deckPath (splitOnChar '.' cardID) = .ok imagePath)
    (hmk : fs.mkdirOk = true)
    (hhit : fs.read (cachePathFor hash cacheBase imagePath) = some art) :
    renderCardArt hash decode cacheBase fs deckPath cardID = .ok (art, fs) := by
  have hstat : fs.stat (cachePathFor hash cacheBase imagePath) = true := by
    simp [FS.stat, FS.statFile, hhit]
  unfold renderCardArt findAnsiFile
  rw [if_neg hlen]
  simp only [hpre32, hpre256, himg, hmk, if_true, hstat, hhit]

theorem renderCardArt_cache_hit_witness :
    renderCardArt testHashFn testDecodeNone ("cache".toList) fsC3b ("deck".toList)
        ("major_arcana.00".toList) = .ok ("ART".toList, fsC3b) :=
  renderCardArt_cache_hit testHashFn testDecodeNone ("cache".toList) fsC3b
    ("deck".toList) ("major_arcana.00".toList)
    ("deck/h750/major_arcana/00.png".toList) ("ART".toList)
    (by decide) (by decide) (by decide) (by decide) (by decide) (by decide)

/-! ## Claim C8 -/

/-- C8: rendering the same source image twice — cold cache first (art
generated from the decoded image and persisted at the derived cache path),
then warm cache (the art read back from that file) — returns byte-identical
text both times, namely `imageToAnsi img 40 32 true`; the pipeline is a
pure function of the decoded image, so it is deterministic for identical
inputs. The freshness hypotheses say the new cache file does not shadow
any path the lookup consults. -/
theorem renderCardArt_cold_then_warm
    (hash : FPath → FPath) (decode : List Char → Option SourceImage)
    (cacheBase : FPath) (fs : FS) (deckPath cardID imagePath : FPath)
    (data : List Char) (img : SourceImage)
    (hlen : ¬ (splitOnChar '.' cardID).length < 2)
    (hpre32 : tryPremadeDir fs deckPath ("ansi32".toList)
      (splitOnChar '.' cardID) = none)
    (hpre256 : tryPremadeDir fs deckPath ("ansi256".toList)
      (splitOnChar '.' cardID) = none)
    (himg : findCardImage fs deckPath (splitOnChar '.' cardID) = .ok imagePath)
    (hmk : fs.mkdirOk = true)
    (hmiss : fs.stat (cachePathFor hash cacheBase imagePath) = false)
    (hopen : fs.read imagePath = some data)
    (hdec : decode data = some img)
    (hd32 : joinPath deckPath ("ansi32".toList) ≠ cachePathFor hash cacheBase imagePath)
    (hf32 : (buildCardPath (joinPath deckPath ("ansi32".toList))
        (splitOnChar '.' cardID) (".ansi".toList)).toOption ≠
      some (cachePathFor hash cacheBase imagePath))
    (hd256 : joinPath deckPath ("ansi256".toList) ≠
      cachePathFor hash cacheBase imagePath)
    (hf256 : (buildCardPath (joinPath deckPath ("ansi256".toList))
        (splitOnChar '.' cardID) (".ansi".toList)).toOption ≠
      some (cachePathFor hash cacheBase imagePath))
    (hdirs : ∀ dir ∈ imageDirs, joinPath deckPath dir ≠
      cachePathFor hash cacheBase imagePath)
    (hcand : ∀ dir ∈ imageDirs, ∀ ext ∈ imageExtensions,
      (buildCardPath (joinPath deckPath dir) (splitOnChar '.' cardID) ext).toOption ≠
        some (cachePathFor hash cacheBase imagePath))
    (hfall : ∀ name ∈ fs.readDirEntries deckPath, ∀ ext ∈ imageExtensions,
      (buildCardPath (joinPath deckPath name) (splitOnChar '.' cardID) ext).toOption ≠
        some (cachePathFor hash cacheBase imagePath)) :
    renderCardArt hash decode cacheBase fs deckPath cardID =
      .ok (imageToAnsi img 40 32 true,
        fs.write (cachePathFor hash cacheBase imagePath) (imageToAnsi img 40 32 true)) ∧
    renderCardArt hash decode cacheBase
        (fs.write (cachePathFor hash cacheBase imagePath) (imageToAnsi img 40 32 true))
        deckPath cardID =
      .ok (imageToAnsi img 40 32 true,
        fs.write (cachePathFor hash cacheBase imagePath) (imageToAnsi img 40 32 true)) := by
  constructor
  · unfold renderCardArt findAnsiFile generateAnsiArt
    rw [if_neg hlen]
    simp only [hpre32, hpre256, himg, hmk, hmiss, hopen, hdec, if_true,
      Bool.false_eq_true, if_false, FS.read_write_self]
  · unfold renderCardArt findAnsiFile
    rw [if_neg hlen]
    rw [tryPremadeDir_write fs (cachePathFor hash cacheBase imagePath)
      (imageToAnsi img 40 32 true) deckPath ("ansi32".toList)
      (splitOnChar '.' cardID) hd32 hf32]
    rw [tryPremadeDir_write fs (cachePathFor hash cacheBase imagePath)
      (imageToAnsi img 40 32 true) deckPath ("ansi256".toList)
      (splitOnChar '.' cardID) hd256 hf256]
    rw [findCardImage_write fs (cachePathFor hash cacheBase imagePath)
      (imageToAnsi img 40 32 true) deckPath (splitOnChar '.' cardID)
      hdirs hcand hfall]
    simp only [hpre32, hpre256, himg, FS.mkdirOk_write, hmk, if_true,
      FS.stat_write_self, FS.read_write_self]

theorem renderCardArt_cold_then_warm_witness :
    renderCardArt testHashFn testDecodeConst ("cache".toList) fsC8 ("deck".toList)
        ("major_arcana.00".toList) =
      .ok (imageToAnsi testImage 40 32 true,
        fsC8.write (cachePathFor testHashFn ("cache".toList)
            ("deck/h750/major_arcana/00.png".toList))
          (imageToAnsi testImage 40 32 true)) ∧
    renderCardArt testHashFn testDecodeConst ("cache".toList)
        (fsC8.write (cachePathFor testHashFn ("cache".toList)
            ("deck/h750/major_arcana/00.png".toList))
          (imageToAnsi testImage 40 32 true))
        ("deck".toList) ("major_arcana.00".toList) =
      .ok (imageToAnsi testImage 40 32 true,
        fsC8.write (cachePathFor testHashFn ("cache".toList)
            ("deck/h750/major_arcana/00.png".toList))
          (imageToAnsi testImage 40 32 true)) :=
  renderCardArt_cold_then_warm testHashFn testDecodeConst ("cache".toList) fsC8
    ("deck".toList) ("major_arcana.00".toList)
    ("deck/h750/major_arcana/00.png".toList) ("IMG".toList) testImage
    (by decide) (by decide) (by decide) (by decide) rfl (by decide) (by decide) rfl
    (by decide) (by decide) (by decide) (by decide) (by decide) (by decide) (by decide)
